import Mathlib

/-!
Verification of the tunnel-orchestration core of `cmd/ssh.go`.

The Go functions are shallowly embedded as pure Lean functions.  Effectful
calls on the injected `WorkspaceClient` (`Status`, `Start`, `Create`) and on
the transport (`os.Pipe`, `devssh.Run`, `agent.RunTunnelServer`) are modelled
by passing their results in explicitly and by recording the calls the code
performs in an event trace.  Timing (sleeps, the 10s progress notice) and the
goroutine scheduling are not observable in the claims below and are not
modelled; the sequential control flow, the strings built, and the returned
errors are translated line by line from the source.
-/

namespace DevPodSSH

/-- The `client2.Status` enum {NotFound, Stopped, Busy, Running} of workspace
statuses. -/
inductive Status where
  | notFound
  | stopped
  | busy
  | running
deriving DecidableEq, Repr

/-- Calls `startWait` performs on the injected `WorkspaceClient`. -/
inductive Event where
  | queryStatus
  | callStart
  | callCreate
deriving DecidableEq, Repr

/-- Embedding of `startWait` (src/cmd/ssh.go:79-118).

The client is scripted: `statuses` lists the successive results of
`client.Status`, `startRes` / `createRes` the result of `client.Start` /
`client.Create` (each is reached at most once per run, because every branch
except `Busy` leaves the loop).  The result pairs the trace of client calls
with the returned value: `some (.ok ())` for `return nil`, `some (.error e)`
for an error return, and `none` when the scripted statuses run out while the
loop is still polling (the loop itself has no bound).

Line-by-line correspondence:
* status error      → `return err` (unwrapped);
* `StatusBusy`      → log/sleep (not modelled) and `continue`;
* `StatusStopped`   → if `create`: `client.Start`, on error
  `errors.Wrap(err, "start workspace")`, else `fmt.Errorf("workspace is stopped")`;
* `StatusNotFound`  → if `create`: `client.Create`, on error `return err`,
  else `fmt.Errorf("workspace wasn't found")`;
* fallthrough (Running, or Stopped/NotFound after successful provisioning)
  → `return nil` (line 116). -/
def startWait (create : Bool) (startRes createRes : Except String Unit) :
    List (Except String Status) → List Event × Option (Except String Unit)
  | [] => ([], none)
  | s :: rest =>
    match s with
    | .error e => ([.queryStatus], some (.error e))
    | .ok .busy =>
      let r := startWait create startRes createRes rest
      (.queryStatus :: r.1, r.2)
    | .ok .stopped =>
      if create then
        match startRes with
        | .error e => ([.queryStatus, .callStart],
            some (.error ("start workspace: " ++ e)))
        | .ok _ => ([.queryStatus, .callStart], some (.ok ()))
      else
        ([.queryStatus], some (.error "workspace is stopped"))
    | .ok .notFound =>
      if create then
        match createRes with
        | .error e => ([.queryStatus, .callCreate], some (.error e))
        | .ok _ => ([.queryStatus, .callCreate], some (.ok ()))
      else
        ([.queryStatus], some (.error "workspace wasn't found"))
    | .ok .running => ([.queryStatus], some (.ok ()))

/-- Embedding of the outer-tunnel remote command string built in
`jumpContainer` (src/cmd/ssh.go:159-165): a `fmt.Sprintf` with `%s` verbs
(plain concatenation), then `" --debug"` appended when `cmd.Debug`, then
`" --user='<user>'"` appended when `cmd.User != ""`. -/
def containerTunnelCommand (agentPath tok workspaceInfo : String)
    (debug : Bool) (user : String) : String :=
  let command := agentPath ++
    " agent container-tunnel --start-container --track-activity --token '" ++
    tok ++ "' --workspace-info '" ++ workspaceInfo ++ "'"
  let command := if debug then command ++ " --debug" else command
  if user != "" then command ++ " --user='" ++ user ++ "'" else command

/-- Embedding of the credentials-server remote command string built in
`runCredentialsServer` (src/cmd/ssh.go:209-215).  `agentHelperPath` stands
for the external constant `agent.ContainerDevPodHelperLocation`. -/
def credentialsServerCommand (agentHelperPath user : String)
    (gitCredentials dockerCredentials : Bool) : String :=
  let command := agentHelperPath ++
    " agent container credentials-server --user '" ++ user ++ "'"
  let command :=
    if gitCredentials then command ++ " --configure-git-helper" else command
  if dockerCredentials then command ++ " --configure-docker-helper" else command

/-- Observable steps of `runCredentialsServer` on the transport side. -/
inductive RelayEvent where
  | allocPipe
  | spawnRemote (command : String)
  | runTunnelServer (gitCredentials dockerCredentials : Bool)
deriving DecidableEq, Repr

/-- Embedding of `runCredentialsServer` (src/cmd/ssh.go:181-228), sequenced
along its control flow.  `pipe1Res` / `pipe2Res` script the two `os.Pipe()`
calls, `remoteRunRes` the `devssh.Run` of the remote helper (delivered via
`errChan`), and `tunnelServerRes` the local `agent.RunTunnelServer`.

* both flags false → `return nil` before any pipe, spawn or tunnel server;
* a pipe failure → the error, unwrapped;
* otherwise the remote helper is spawned with `credentialsServerCommand` and
  the tunnel server runs; a tunnel-server error is wrapped
  (`errors.Wrap(err, "run tunnel server")`), else the function returns the
  remote helper's result read from `errChan`. -/
def runCredentialsServer (agentHelperPath user : String)
    (gitCredentials dockerCredentials : Bool)
    (pipe1Res pipe2Res : Except String Unit)
    (tunnelServerRes remoteRunRes : Except String Unit) :
    List RelayEvent × Except String Unit :=
  if !gitCredentials && !dockerCredentials then ([], .ok ())
  else
    match pipe1Res with
    | .error e => ([.allocPipe], .error e)
    | .ok _ =>
      match pipe2Res with
      | .error e => ([.allocPipe, .allocPipe], .error e)
      | .ok _ =>
        let command :=
          credentialsServerCommand agentHelperPath user gitCredentials dockerCredentials
        let events := [.allocPipe, .allocPipe, .spawnRemote command,
          .runTunnelServer gitCredentials dockerCredentials]
        match tunnelServerRes with
        | .error e => (events, .error ("run tunnel server: " ++ e))
        | .ok _ => (events, remoteRunRes)

/-- Embedding of the inner credential-relay handler installed by
`jumpContainer` (src/cmd/ssh.go:142-150): it runs `runCredentialsServer`
(with `dockerCredentials` hard-coded to `true`), logs
`"Error running credential server: <err>"` when that returns an error, then
blocks on `ctx.Done()` and returns `nil`.  The result pairs the logged
messages with the handler's returned error (`none` = `nil`). -/
def innerContainerHandler (agentHelperPath user : String) (gitCredentials : Bool)
    (pipe1Res pipe2Res tunnelServerRes remoteRunRes : Except String Unit) :
    List String × Option String :=
  match (runCredentialsServer agentHelperPath user gitCredentials true
      pipe1Res pipe2Res tunnelServerRes remoteRunRes).2 with
  | .error e => (["Error running credential server: " ++ e], none)
  | .ok _ => ([], none)

/-- Modelled from the spec: the external constant `config.IDEVSCode` (package
`pkg/config`, not part of the core under verification) naming the VSCode IDE;
only its identity matters to the claims below, never its spelling. -/
def IDEVSCode : String := "vscode"

/-- Embedding of the credential-forwarding setup in `jumpContainer`
(src/cmd/ssh.go:139-151): `runInContainer` stays `nil` unless
`cmd.User != ""`; when installed, `gitCredentials` is
`client.WorkspaceConfig().IDE.Name != string(config.IDEVSCode)` and the
handler calls `runCredentialsServer` with `dockerCredentials = true`.
`none` models the nil handler; `some (git, docker)` the installed handler's
forwarding flags. -/
def credentialForwardingSetup (user ideName : String) : Option (Bool × Bool) :=
  if user != "" then some (ideName != IDEVSCode, true) else none

/-- Embedding of the readiness-wait call in `jumpContainer`
(src/cmd/ssh.go:121): `startWait(ctx, client, false, log)` — the `create`
argument is the literal `false`. -/
def jumpContainerStartWait (startRes createRes : Except String Unit)
    (statuses : List (Except String Status)) :
    List Event × Option (Except String Unit) :=
  startWait false startRes createRes statuses

/-- Helper: with `create = false`, no run of `startWait` ever records a
`Start` or `Create` call, whatever the scripted statuses. -/
lemma startWait_false_no_provision (startRes createRes : Except String Unit)
    (statuses : List (Except String Status)) :
    Event.callStart ∉ (startWait false startRes createRes statuses).1 ∧
    Event.callCreate ∉ (startWait false startRes createRes statuses).1 := by
  induction statuses with
  | nil => simp [startWait]
  | cons s rest ih =>
    rcases s with e | st
    · simp [startWait]
    · cases st
      · simp [startWait]
      · simp [startWait]
      · simpa [startWait] using ih
      · simp [startWait]

end DevPodSSH

namespace DevPodSSH

/-- C1: the claim, as stated, is false on the code.  With provisioning
allowed, an initial `Stopped` (resp. `NotFound`) status and a successful
`Start()` (resp. `Create()`), `startWait` returns success right after the
provisioning call: the trace shows a single status query followed by the
provisioning call, and no later poll ever observes `Running` (the script
contains no `Running` at all), yet the result is `nil`. -/
theorem startWait_returns_success_right_after_start :
    startWait true (.ok ()) (.ok ()) [.ok .stopped] =
      ([.queryStatus, .callStart], some (.ok ())) ∧
    startWait true (.ok ()) (.ok ()) [.ok .notFound] =
      ([.queryStatus, .callCreate], some (.ok ())) := by
  constructor <;> rfl

/-- C1 (amended): in the readiness wait loop, when the status is `Stopped`
(resp. `NotFound`) and provisioning is allowed, after `Start()` (resp.
`Create()`) returns without error the loop returns success immediately,
performing no further status query: control falls through to the final
`return nil` without re-polling. -/
theorem startWait_provision_success_no_repoll
    (createRes startRes : Except String Unit) (rest : List (Except String Status)) :
    startWait true (.ok ()) createRes (.ok .stopped :: rest) =
      ([.queryStatus, .callStart], some (.ok ())) ∧
    startWait true startRes (.ok ()) (.ok .notFound :: rest) =
      ([.queryStatus, .callCreate], some (.ok ())) := by
  constructor <;> rfl

/-- C2: the claim, as stated, is false on the code.  A failing `Start()` is
indeed wrapped with the action name (`"start workspace: ..."`), but a failing
`Create()` is returned verbatim: the error coming back is byte-identical to
the underlying error `"boom"`, with no action name attached. -/
theorem startWait_create_error_not_wrapped :
    startWait true (.ok ()) (.error "boom") [.ok .notFound] =
      ([.queryStatus, .callCreate], some (.error "boom")) ∧
    startWait true (.error "boom") (.ok ()) [.ok .stopped] =
      ([.queryStatus, .callStart],
        some (.error ("start workspace: " ++ "boom"))) := by
  constructor <;> rfl

/-- C2 (amended): when `Start()` fails, `startWait` returns the error wrapped
with the action name (`"start workspace: <err>"`); when `Create()` fails, the
error is returned unwrapped, exactly as produced by `Create()`. -/
theorem startWait_error_wrapping
    (e : String) (createRes startRes : Except String Unit)
    (rest : List (Except String Status)) :
    startWait true (.error e) createRes (.ok .stopped :: rest) =
      ([.queryStatus, .callStart], some (.error ("start workspace: " ++ e))) ∧
    startWait true startRes (.error e) (.ok .notFound :: rest) =
      ([.queryStatus, .callCreate], some (.error e)) := by
  constructor <;> rfl

/-- C3: for every status sequence of `n` occurrences of `Busy` followed by
`Running`, `startWait` returns `nil` with a trace of exactly `n + 1` status
queries and nothing else — in particular no `Start()` or `Create()` call —
and for `n = 0` a first-poll `Running` returns success immediately. -/
theorem startWait_busy_then_running
    (n : Nat) (create : Bool) (startRes createRes : Except String Unit) :
    startWait create startRes createRes
        (List.replicate n (.ok .busy) ++ [.ok .running]) =
      (List.replicate (n + 1) .queryStatus, some (.ok ())) := by
  induction n with
  | zero => rfl
  | succ k ih =>
    simp only [List.replicate_succ, List.cons_append, startWait, List.append_eq, ih]

/-- C4: with provisioning disallowed (`create = false`), a first status of
`Stopped` (resp. `NotFound`) makes `startWait` return an error after that
single status query — so `Start()`/`Create()` are never called — and the
error messages are exactly `"workspace is stopped"` and
`"workspace wasn't found"`. -/
theorem startWait_no_provision_errors
    (startRes createRes : Except String Unit) (rest : List (Except String Status)) :
    startWait false startRes createRes (.ok .stopped :: rest) =
      ([.queryStatus], some (.error "workspace is stopped")) ∧
    startWait false startRes createRes (.ok .notFound :: rest) =
      ([.queryStatus], some (.error "workspace wasn't found")) := by
  constructor <;> rfl

/-- C5: the outer-tunnel remote command is a pure function of
`(agentPath, token, workspaceInfo, debug, user)` — determinism is intrinsic
to it being a function — and equals byte-for-byte the fixed base string
`"<agentPath> agent container-tunnel --start-container --track-activity
--token '<token>' --workspace-info '<json>'"` with `" --debug"` appended iff
`debug` is set and `" --user='<user>'"` appended iff `user` is non-empty.
Since the part before the user segment does not depend on `user`, changing
`user` changes only the `--user` segment. -/
theorem containerTunnelCommand_shape (agentPath tok workspaceInfo : String)
    (debug : Bool) (user : String) :
    containerTunnelCommand agentPath tok workspaceInfo debug user =
      (agentPath ++
        " agent container-tunnel --start-container --track-activity --token '" ++
        tok ++ "' --workspace-info '" ++ workspaceInfo ++ "'") ++
      (if debug then " --debug" else "") ++
      (if user != "" then " --user='" ++ user ++ "'" else "") := by
  cases debug <;> cases h : user != "" <;>
    simp [containerTunnelCommand, h] <;> simp only [String.append_assoc]

/-- C6: `runCredentialsServer` with both `gitCredentials` and
`dockerCredentials` false returns `nil` immediately: the event trace is
empty, so no pipe is allocated, no remote process spawned and no local
tunnel server started, whatever the scripted outcomes of those calls would
have been. -/
theorem runCredentialsServer_noop (agentHelperPath user : String)
    (pipe1Res pipe2Res tunnelServerRes remoteRunRes : Except String Unit) :
    runCredentialsServer agentHelperPath user false false
        pipe1Res pipe2Res tunnelServerRes remoteRunRes = ([], .ok ()) := rfl

set_option maxRecDepth 40000 in
/-- C7: the credentials-server remote command always equals the base string
`"<agentHelperPath> agent container credentials-server --user '<user>'"`
followed by `" --configure-git-helper"` exactly when `gitCredentials` and by
`" --configure-docker-helper"` exactly when `dockerCredentials` — so it
always begins with the base string — and, instantiated at the concrete
helper path and user, the command contains the `--configure-git-helper`
(resp. `--configure-docker-helper`) flag as a substring if and only if the
corresponding boolean is set. -/
theorem credentialsServerCommand_flags (agentHelperPath user : String)
    (gitCredentials dockerCredentials : Bool) :
    (credentialsServerCommand agentHelperPath user gitCredentials dockerCredentials =
      (agentHelperPath ++ " agent container credentials-server --user '" ++
        user ++ "'") ++
      (if gitCredentials then " --configure-git-helper" else "") ++
      (if dockerCredentials then " --configure-docker-helper" else "")) ∧
    (∀ g d : Bool,
      ((" --configure-git-helper").data <:+:
          (credentialsServerCommand "/usr/local/bin/devpod" "root" g d).data ↔
        g = true) ∧
      ((" --configure-docker-helper").data <:+:
          (credentialsServerCommand "/usr/local/bin/devpod" "root" g d).data ↔
        d = true)) := by
  constructor
  · cases gitCredentials <;> cases dockerCredentials <;>
      simp [credentialsServerCommand]
  · intro g d
    cases g <;> cases d <;> constructor <;> decide

/-- C8: the inner credential-relay handler never propagates an error: its
returned value is `nil` (`none`) for every outcome of `runCredentialsServer`,
and when `runCredentialsServer` returns an error the handler merely logs
`"Error running credential server: <err>"`. -/
theorem innerContainerHandler_never_propagates
    (agentHelperPath user : String) (gitCredentials : Bool)
    (pipe1Res pipe2Res tunnelServerRes remoteRunRes : Except String Unit) :
    (innerContainerHandler agentHelperPath user gitCredentials
        pipe1Res pipe2Res tunnelServerRes remoteRunRes).2 = none ∧
    (∀ e, (runCredentialsServer agentHelperPath user gitCredentials true
          pipe1Res pipe2Res tunnelServerRes remoteRunRes).2 = .error e →
      innerContainerHandler agentHelperPath user gitCredentials
          pipe1Res pipe2Res tunnelServerRes remoteRunRes =
        (["Error running credential server: " ++ e], none)) := by
  constructor
  · unfold innerContainerHandler
    rcases h : (runCredentialsServer agentHelperPath user gitCredentials true
        pipe1Res pipe2Res tunnelServerRes remoteRunRes).2 with e | u
    · simp [h]
    · simp [h]
  · intro e he
    unfold innerContainerHandler
    rw [he]

/-- C8 witness: at a concrete failing tunnel server, the handler logs the
wrapped error and returns `nil`. -/
theorem innerContainerHandler_never_propagates_witness :
    innerContainerHandler "/usr/local/bin/devpod" "root" true
        (.ok ()) (.ok ()) (.error "boom") (.ok ()) =
      (["Error running credential server: " ++ ("run tunnel server: " ++ "boom")],
        none) :=
  (innerContainerHandler_never_propagates "/usr/local/bin/devpod" "root" true
      (.ok ()) (.ok ()) (.error "boom") (.ok ())).2
    ("run tunnel server: " ++ "boom") rfl

/-- C9: the ssh command path invokes the readiness wait with provisioning
disabled: `jumpContainer` calls `startWait` with `create = false`, so a
first status of `Stopped` or `NotFound` yields the corresponding error and
no run of this wait, whatever the scripted statuses, ever calls `Start()`
or `Create()`. -/
theorem jumpContainer_wait_no_provision
    (startRes createRes : Except String Unit)
    (statuses rest : List (Except String Status)) :
    jumpContainerStartWait startRes createRes statuses =
      startWait false startRes createRes statuses ∧
    jumpContainerStartWait startRes createRes (.ok .stopped :: rest) =
      ([.queryStatus], some (.error "workspace is stopped")) ∧
    jumpContainerStartWait startRes createRes (.ok .notFound :: rest) =
      ([.queryStatus], some (.error "workspace wasn't found")) ∧
    Event.callStart ∉ (jumpContainerStartWait startRes createRes statuses).1 ∧
    Event.callCreate ∉ (jumpContainerStartWait startRes createRes statuses).1 := by
  refine ⟨rfl, rfl, rfl, ?_, ?_⟩
  · exact (startWait_false_no_provision startRes createRes statuses).1
  · exact (startWait_false_no_provision startRes createRes statuses).2

/-- C10: the inner relay handler is installed if and only if `--user` is
non-empty (`credentialForwardingSetup` is `none` iff `user = ""`); when
installed, docker-credential forwarding is always on and git-credential
forwarding is on exactly when the workspace's configured IDE is not
VSCode. -/
theorem credentialForwardingSetup_spec (user ideName : String) :
    (credentialForwardingSetup user ideName = none ↔ user = "") ∧
    (user ≠ "" → credentialForwardingSetup user ideName =
      some (ideName != IDEVSCode, true)) ∧
    (∀ git docker : Bool,
      credentialForwardingSetup user ideName = some (git, docker) →
        docker = true ∧ (git = true ↔ ideName ≠ IDEVSCode)) := by
  refine ⟨?_, ?_, ?_⟩
  · unfold credentialForwardingSetup
    by_cases h : user = "" <;> simp [h]
  · intro h
    unfold credentialForwardingSetup
    simp [h]
  · intro git docker hsome
    unfold credentialForwardingSetup at hsome
    by_cases h : user = ""
    · simp [h] at hsome
    · simp only [h, bne_iff_ne, ne_eq, not_false_iff, if_pos, Option.some.injEq,
        Prod.mk.injEq] at hsome
      rcases hsome with ⟨hg, hd⟩
      subst hd
      refine ⟨rfl, ?_⟩
      rw [← hg]
      simp [bne_iff_ne]

/-- C10 witness: a non-empty user with a non-VSCode IDE installs the handler
with both forwardings on; a non-empty user with the VSCode IDE keeps docker
forwarding only; an empty user installs no handler. -/
theorem credentialForwardingSetup_spec_witness :
    credentialForwardingSetup "root" "goland" = some ("goland" != IDEVSCode, true) ∧
    credentialForwardingSetup "" "goland" = none := by
  constructor
  · exact (credentialForwardingSetup_spec "root" "goland").2.1 (by decide)
  · exact (credentialForwardingSetup_spec "" "goland").1.mpr rfl

end DevPodSSH
